import Mathlib

/-!
Verification of the SlateHub semantic-search core: a shallow embedding of
`server/src/services/embedding.rs` (embedding producer and the four
canonical-text builders) and `server/src/routes/search.rs` (the per-kind
vector-search pipelines and the `search_page` orchestrator), together with
theorems settling the frozen claims about them.

Modelling conventions: `f32` values are modelled as rationals, the global
`EMBEDDER` state is passed explicitly as an `Option Model`, the external
store responses and the embedding call inside the route are parameters, and
a possible runtime abort (Rust `unwrap` on `None`) is an explicit
`Outcome.panics` value. `chrono::Utc::now().year()` inside the organization
builder is passed explicitly as a `current_year` argument.
-/

namespace SlateHub

/-! ## Embedding producer (`services/embedding.rs`) -/

/-- A single embedding vector (`Vec<f32>` modelled over `ℚ`). -/
abbrev Embedding := List ℚ

/-- The loaded `TextEmbedding` model: its `embed` method takes a batch of
texts and either fails with a model error or returns one vector per text. -/
def Model := List String → Except String (List Embedding)

/-- Result of running a Rust function that may abort the process:
`panics` models an `unwrap` failure, `returns` a normal return value. -/
inductive Outcome (α : Type) where
  | panics
  | returns (val : α)
deriving DecidableEq

/-- The exact message of the `anyhow!` error returned when the global
embedder has not been initialized. -/
def notInitializedMsg : String :=
  "Embedding service not initialized. Call init_embedding_service() first."

/-- `generate_embedding` from `embedding.rs` lines 26-42. The global
`EMBEDDER` contents are the explicit `st` argument. The source calls
`e.embed(vec![text], None)?` and then `embeddings.into_iter().next().unwrap()`;
the `unwrap` aborts when the model returned zero vectors. -/
def generate_embedding (st : Option Model) (text : String) :
    Outcome (Except String Embedding) :=
  match st with
  | none => .returns (.error notInitializedMsg)
  | some e =>
    match e [text] with
    | .error msg => .returns (.error msg)
    | .ok embeddings =>
      match embeddings.head? with
      | some v => .returns (.ok v)
      | none => .panics

/-- `generate_embeddings_batch` from `embedding.rs` lines 45-58. -/
def generate_embeddings_batch (st : Option Model) (texts : List String) :
    Outcome (Except String (List Embedding)) :=
  match st with
  | none => .returns (.error notInitializedMsg)
  | some e =>
    match e texts with
    | .error msg => .returns (.error msg)
    | .ok embeddings => .returns (.ok embeddings)

/-! ## Canonical-text builders (`embedding.rs` lines 60-288) -/

/-- Rust `slice::join(", ")`. -/
def joinComma (l : List String) : String := String.intercalate ", " l

/-- One optional fragment: `if let Some(x) = o { parts.push(f(x)) }`. -/
def optPart {α : Type} (o : Option α) (f : α → String) : List String :=
  match o with
  | some a => [f a]
  | none => []

/-- One list-guarded fragment: `if !l.is_empty() { parts.push(s) }`. -/
def listPart {α : Type} (l : List α) (s : String) : List String :=
  if l.isEmpty then [] else [s]

/-- The height fragment of the person builder (`embedding.rs` lines 100-104):
`feet = height / 30` and `inches = (height % 30) * 12 / 30` with Rust `i32`
truncating division and remainder (`Int.tdiv` / `Int.tmod`), formatted as
`Height: {h} cm ({feet}'{inches}")`. -/
def heightFragment (height : Int) : String :=
  "Height: " ++ (toString height ++ " cm (" ++ toString (Int.tdiv height 30)
    ++ "\x27" ++ toString (Int.tdiv (Int.tmod height 30 * 12) 30) ++ "\x22)")

/-- The ordered fragment list assembled by `build_person_embedding_text`
(`embedding.rs` lines 62-148), before the final `join(". ")`. -/
def build_person_parts (name : String) (headline bio : Option String)
    (skills : List String) (location : Option String)
    (age_range : Option (Int × Int)) (gender : Option String)
    (ethnicity : List String) (height_cm : Option Int)
    (body_type hair_color eye_color : Option String)
    (languages unions experience : List String) : List String :=
  ["Name: " ++ name]
  ++ optPart headline (fun h => "Role: " ++ h)
  ++ optPart gender (fun g => "Gender: " ++ g)
  ++ optPart age_range
      (fun p => "Age range: " ++ (toString p.1 ++ "-" ++ toString p.2 ++ " years old"))
  ++ listPart ethnicity ("Ethnicity: " ++ joinComma ethnicity)
  ++ optPart height_cm heightFragment
  ++ optPart body_type (fun bt => "Build: " ++ bt)
  ++ optPart hair_color (fun hc => "Hair: " ++ hc)
  ++ optPart eye_color (fun ec => "Eyes: " ++ ec)
  ++ optPart location (fun loc => "Location: " ++ loc)
  ++ listPart skills ("Skills and abilities: " ++ joinComma skills)
  ++ listPart languages ("Languages: " ++ joinComma languages)
  ++ listPart unions ("Union membership: " ++ joinComma unions)
  ++ optPart bio (fun b => "Background: " ++ b)
  ++ listPart experience ("Experience: " ++ String.intercalate ". " experience)

/-- `build_person_embedding_text` (`embedding.rs` lines 62-148). -/
def build_person_embedding_text (name : String) (headline bio : Option String)
    (skills : List String) (location : Option String)
    (age_range : Option (Int × Int)) (gender : Option String)
    (ethnicity : List String) (height_cm : Option Int)
    (body_type hair_color eye_color : Option String)
    (languages unions experience : List String) : String :=
  String.intercalate ". " (build_person_parts name headline bio skills location
    age_range gender ethnicity height_cm body_type hair_color eye_color
    languages unions experience)

/-- The company-size tier of the organization builder (`embedding.rs`
lines 186-191): Rust `match count { 0..=10 => "small", 11..=50 => "medium",
51..=200 => "large", _ => "enterprise" }`. -/
def sizeLabel (count : Int) : String :=
  if 0 ≤ count ∧ count ≤ 10 then "small"
  else if 11 ≤ count ∧ count ≤ 50 then "medium"
  else if 51 ≤ count ∧ count ≤ 200 then "large"
  else "enterprise"

/-- The ordered fragment list assembled by `build_organization_embedding_text`
(`embedding.rs` lines 153-201). The source reads `chrono::Utc::now().year()`;
that hidden clock input is the explicit `current_year` argument here. -/
def build_organization_parts (current_year : Int) (name org_type : String)
    (description : Option String) (services : List String)
    (location : Option String) (founded_year employees_count : Option Int) :
    List String :=
  ["Organization: " ++ name, "Type: " ++ org_type]
  ++ optPart location (fun loc => "Location: " ++ loc)
  ++ listPart services ("Services: " ++ joinComma services)
  ++ optPart founded_year
      (fun year => "Established " ++ (toString (current_year - year)
        ++ " years ago (founded " ++ toString year ++ ")"))
  ++ optPart employees_count
      (fun count => sizeLabel count
        ++ (" company with " ++ toString count ++ " employees"))
  ++ optPart description (fun desc => "Description: " ++ desc)

/-- `build_organization_embedding_text` (`embedding.rs` lines 153-201),
with the clock year as an explicit first argument. -/
def build_organization_embedding_text (current_year : Int)
    (name org_type : String) (description : Option String)
    (services : List String) (location : Option String)
    (founded_year employees_count : Option Int) : String :=
  String.intercalate ". " (build_organization_parts current_year name org_type
    description services location founded_year employees_count)

/-- The ordered fragment list assembled by `build_location_embedding_text`
(`embedding.rs` lines 205-248). -/
def build_location_parts (name : String) (description : Option String)
    (city state country : String) (amenities restrictions : List String)
    (max_capacity : Option Int) (parking_info : Option String) : List String :=
  ["Location: " ++ name,
    "Located in " ++ (city ++ ", " ++ state ++ ", " ++ country)]
  ++ optPart description (fun desc => "Description: " ++ desc)
  ++ listPart amenities ("Amenities and features: " ++ joinComma amenities)
  ++ optPart max_capacity (fun cap => "Maximum capacity: " ++ (toString cap ++ " people"))
  ++ optPart parking_info (fun parking => "Parking: " ++ parking)
  ++ listPart restrictions ("Restrictions: " ++ joinComma restrictions)

/-- `build_location_embedding_text` (`embedding.rs` lines 205-248). -/
def build_location_embedding_text (name : String) (description : Option String)
    (city state country : String) (amenities restrictions : List String)
    (max_capacity : Option Int) (parking_info : Option String) : String :=
  String.intercalate ". " (build_location_parts name description city state
    country amenities restrictions max_capacity parking_info)

/-- The scheduling fragment of the production builder (`embedding.rs`
lines 269-275): nested `if let` on start and end dates. -/
def schedParts (start_date end_date : Option String) : List String :=
  match start_date, end_date with
  | some start, some ed => ["Scheduled from " ++ (start ++ " to " ++ ed)]
  | some start, none => ["Starts on " ++ start]
  | none, _ => []

/-- The ordered fragment list assembled by `build_production_embedding_text`
(`embedding.rs` lines 252-288). -/
def build_production_parts (title production_type status : String)
    (description location start_date end_date : Option String) : List String :=
  ["Production: " ++ title, "Type: " ++ production_type, "Status: " ++ status]
  ++ schedParts start_date end_date
  ++ optPart location (fun loc => "Filming location: " ++ loc)
  ++ optPart description (fun desc => "Description: " ++ desc)

/-- `build_production_embedding_text` (`embedding.rs` lines 252-288). -/
def build_production_embedding_text (title production_type status : String)
    (description location start_date end_date : Option String) : String :=
  String.intercalate ". " (build_production_parts title production_type status
    description location start_date end_date)

/-! ## Search route (`routes/search.rs`) -/

/-- The Unicode White_Space code points, as recognized by Rust
`char::is_whitespace` (used by `str::trim` and `split_whitespace`). -/
def isRustWhitespace (c : Char) : Bool :=
  c ∈ ([' ', '\t', '\n', '\x0b', '\x0c', '\r', '\u0085', '\u00A0',
    '\u1680', '\u2000', '\u2001', '\u2002', '\u2003', '\u2004', '\u2005',
    '\u2006', '\u2007', '\u2008', '\u2009', '\u200A', '\u2028', '\u2029',
    '\u202F', '\u205F', '\u3000'] : List Char)

/-- Rust `str::trim`: remove leading and trailing whitespace. -/
def rustTrim (s : String) : String :=
  String.mk (((s.toList.dropWhile isRustWhitespace).reverse.dropWhile
    isRustWhitespace).reverse)

/-- Rust `str::split_whitespace`: the nonempty maximal runs between
whitespace characters. -/
def splitWhitespaceWords (s : String) : List String :=
  (s.split isRustWhitespace).filter (fun w => ¬ w.isEmpty)

/-- The initials computation of `search_people` (`search.rs` lines 238-244):
first character of up to the first two whitespace-separated words of the
name, uppercased (simple per-character uppercase model of
`str::to_uppercase`). -/
def personInitials (name : String) : String :=
  String.mk ((((splitWhitespaceWords name).filterMap
    (fun w => w.toList.head?)).take 2).map Char.toUpper)

/-- `search.rs` line 245: `(1.0 - dist).max(0.0)`. -/
def similarityOfDist (dist : ℚ) : ℚ := max (1 - dist) 0

/-- `search.rs` line 256: `(similarity * 100.0).round() as i32`. Rust `round`
rounds half away from zero; the similarity is never negative, so Mathlib
`round` (half up) agrees. -/
def scoreOfDist (dist : ℚ) : ℤ := round (similarityOfDist dist * 100)

/-- Row shape `PersonSearchDb` deserialized from the store (`search.rs`
lines 184-194). -/
structure PersonSearchDb where
  id : String
  name : String
  username : String
  headline : Option String
  location : Option String
  skills : List String
  avatar_url : Option String
  dist : ℚ
deriving DecidableEq

/-- Display record `PersonSearchResult` (`search.rs` lines 36-47). -/
structure PersonSearchResult where
  id : String
  name : String
  username : String
  headline : Option String
  location : Option String
  skills : List String
  avatar_url : Option String
  initials : String
  score : ℤ
deriving DecidableEq

/-- Row shape `OrganizationSearchDb` (`search.rs` lines 268-277). -/
structure OrganizationSearchDb where
  id : String
  name : String
  slug : String
  description : Option String
  location : Option String
  logo : Option String
  dist : ℚ
deriving DecidableEq

/-- Display record `OrganizationSearchResult` (`search.rs` lines 49-58). -/
structure OrganizationSearchResult where
  id : String
  name : String
  slug : String
  description : Option String
  location : Option String
  logo : Option String
  score : ℤ
deriving DecidableEq

/-- Row shape `LocationSearchDb` (`search.rs` lines 337-347), including the
`is_public` visibility flag. -/
structure LocationSearchDb where
  id : String
  name : String
  address : String
  city : String
  state : String
  description : Option String
  is_public : Bool
  dist : ℚ
deriving DecidableEq

/-- Display record `LocationSearchResult` (`search.rs` lines 60-69). -/
structure LocationSearchResult where
  id : String
  name : String
  address : String
  city : String
  state : String
  description : Option String
  score : ℤ
deriving DecidableEq

/-- Row shape `ProductionSearchDb` (`search.rs` lines 412-420). -/
structure ProductionSearchDb where
  id : String
  title : String
  status : String
  description : Option String
  location : Option String
  dist : ℚ
deriving DecidableEq

/-- Display record `ProductionSearchResult` (`search.rs` lines 71-79). -/
structure ProductionSearchResult where
  id : String
  title : String
  status : String
  description : Option String
  location : Option String
  score : ℤ
deriving DecidableEq

/-- The map step of `search_people` (`search.rs` lines 237-258). -/
def shapePerson (p : PersonSearchDb) : PersonSearchResult :=
  { id := p.id, name := p.name, username := p.username, headline := p.headline,
    location := p.location, skills := p.skills, avatar_url := p.avatar_url,
    initials := personInitials p.name, score := scoreOfDist p.dist }

/-- The pure map/filter pipeline of `search_people` (`search.rs`
lines 235-260): shape every row, keep scores of at least 50. -/
def processPeople (rows : List PersonSearchDb) : List PersonSearchResult :=
  (rows.map shapePerson).filter (fun p => 50 ≤ p.score)

/-- The map step of `search_organizations` (`search.rs` lines 318-329). -/
def shapeOrganization (o : OrganizationSearchDb) : OrganizationSearchResult :=
  { id := o.id, name := o.name, slug := o.slug, description := o.description,
    location := o.location, logo := o.logo, score := scoreOfDist o.dist }

/-- The pure pipeline of `search_organizations` (`search.rs` lines 316-331). -/
def processOrganizations (rows : List OrganizationSearchDb) :
    List OrganizationSearchResult :=
  (rows.map shapeOrganization).filter (fun o => 50 ≤ o.score)

/-- The map step of `search_locations` (`search.rs` lines 391-402). -/
def shapeLocation (l : LocationSearchDb) : LocationSearchResult :=
  { id := l.id, name := l.name, address := l.address, city := l.city,
    state := l.state, description := l.description, score := scoreOfDist l.dist }

/-- The pure pipeline of `search_locations` (`search.rs` lines 388-404):
filter on `is_public` first, then shape, then apply the score floor. -/
def processLocations (rows : List LocationSearchDb) : List LocationSearchResult :=
  (((rows.filter (fun l => l.is_public)).map shapeLocation).filter
    (fun l => 50 ≤ l.score))

/-- The map step of `search_productions` (`search.rs` lines 459-470). -/
def shapeProduction (p : ProductionSearchDb) : ProductionSearchResult :=
  { id := p.id, title := p.title, status := p.status,
    description := p.description, location := p.location,
    score := scoreOfDist p.dist }

/-- The pure pipeline of `search_productions` (`search.rs` lines 458-472). -/
def processProductions (rows : List ProductionSearchDb) :
    List ProductionSearchResult :=
  (rows.map shapeProduction).filter (fun p => 50 ≤ p.score)

/-- The route error type `crate::error::Error`, restricted to the variants
`search.rs` constructs. -/
inductive AppError where
  | Internal (msg : String)
  | Database (msg : String)
  | Template (msg : String)
deriving DecidableEq

/-- `search_people` including its store interaction (`search.rs`
lines 183-263): a store/deserialization failure is mapped to
`Error::Database`, success runs the pure pipeline. -/
def search_people (resp : Except String (List PersonSearchDb)) :
    Except AppError (List PersonSearchResult) :=
  match resp with
  | .error e => .error (.Database e)
  | .ok rows => .ok (processPeople rows)

/-- `search_organizations` (`search.rs` lines 265-334). -/
def search_organizations (resp : Except String (List OrganizationSearchDb)) :
    Except AppError (List OrganizationSearchResult) :=
  match resp with
  | .error e => .error (.Database e)
  | .ok rows => .ok (processOrganizations rows)

/-- `search_locations` (`search.rs` lines 336-407). -/
def search_locations (resp : Except String (List LocationSearchDb)) :
    Except AppError (List LocationSearchResult) :=
  match resp with
  | .error e => .error (.Database e)
  | .ok rows => .ok (processLocations rows)

/-- `search_productions` (`search.rs` lines 409-475). -/
def search_productions (resp : Except String (List ProductionSearchDb)) :
    Except AppError (List ProductionSearchResult) :=
  match resp with
  | .error e => .error (.Database e)
  | .ok rows => .ok (processProductions rows)

/-- The external store, one KNN lookup per record kind: each takes the query
embedding and returns either the deserialized rows or an error message. -/
structure StoreResponses where
  people : Embedding → Except String (List PersonSearchDb)
  organizations : Embedding → Except String (List OrganizationSearchDb)
  locations : Embedding → Except String (List LocationSearchDb)
  productions : Embedding → Except String (List ProductionSearchDb)

/-- The search-relevant fields of `SearchTemplate` (`search.rs` lines 19-34);
the static presentation fields (app name, year, version, active page, user)
are omitted. -/
structure SearchTemplate where
  query : Option String
  has_results : Bool
  total_results : Nat
  people : List PersonSearchResult
  organizations : List OrganizationSearchResult
  locations : List LocationSearchResult
  productions : List ProductionSearchResult
deriving DecidableEq

/-- The template built for an empty query (`search.rs` lines 103-118). -/
def emptySearchTemplate : SearchTemplate :=
  { query := none, has_results := false, total_results := 0, people := [],
    organizations := [], locations := [], productions := [] }

/-- `search_page` (`search.rs` lines 90-181). The call to
`generate_embedding` is the `embed` parameter; the store is the `stores`
parameter; rendering to HTML is omitted (the template itself is returned). -/
def search_page (q : Option String)
    (embed : String → Except String Embedding) (stores : StoreResponses) :
    Except AppError SearchTemplate :=
  let query := rustTrim (q.getD "")
  if query.isEmpty then
    .ok emptySearchTemplate
  else
    match embed query with
    | .error _ =>
      .error (.Internal "Failed to process search query - embedding service error")
    | .ok query_embedding => do
      let people ← search_people (stores.people query_embedding)
      let organizations ← search_organizations (stores.organizations query_embedding)
      let locations ← search_locations (stores.locations query_embedding)
      let productions ← search_productions (stores.productions query_embedding)
      let total_results :=
        people.length + organizations.length + locations.length + productions.length
      .ok ({ query := some query, has_results := decide (0 < total_results),
             total_results := total_results, people := people,
             organizations := organizations, locations := locations,
             productions := productions })

/-- `noFragment lbl parts` states that no emitted fragment carries the label
`lbl`: no element of `parts` starts with it. -/
def noFragment (lbl : String) (parts : List String) : Prop :=
  ∀ part ∈ parts, ¬ (lbl.toList <+: part.toList)

/-! ## Helper lemmas -/

/-- Two character lists that diverge within their common length prefix
neither of which extends: `p` is no prefix of `q ++ r`. -/
lemma not_pfx_append (p q r : List Char) (h₁ : ¬ p <+: q) (h₂ : ¬ q <+: p) :
    ¬ p <+: (q ++ r) := by
  intro hpr
  rcases le_total p.length q.length with hle | hle
  · exact h₁ (List.prefix_of_prefix_length_le hpr (List.prefix_append q r) hle)
  · exact h₂ (List.prefix_of_prefix_length_le (List.prefix_append q r) hpr hle)

/-- String version of `not_pfx_append`, for fragments of the form
`label ++ rest`. -/
lemma label_not_pfx (p q r : String) (h₁ : ¬ (p.toList <+: q.toList))
    (h₂ : ¬ (q.toList <+: p.toList)) : ¬ (p.toList <+: (q ++ r).toList) := by
  have h : (q ++ r).toList = q.toList ++ r.toList := rfl
  rw [h]
  exact not_pfx_append _ _ _ h₁ h₂

@[simp] lemma noFragment_nil (l : String) : noFragment l [] := by
  simp [noFragment]

@[simp] lemma noFragment_append (l : String) (xs ys : List String) :
    noFragment l (xs ++ ys) ↔ noFragment l xs ∧ noFragment l ys := by
  constructor
  · intro h
    exact ⟨fun part hp => h part (List.mem_append_left _ hp),
           fun part hp => h part (List.mem_append_right _ hp)⟩
  · rintro ⟨h1, h2⟩ part hp
    rcases List.mem_append.mp hp with hx | hx
    · exact h1 part hx
    · exact h2 part hx

@[simp] lemma noFragment_singleton (l s : String) :
    noFragment l [s] ↔ ¬ (l.toList <+: s.toList) := by
  simp [noFragment]

@[simp] lemma noFragment_cons (l s : String) (rest : List String) :
    noFragment l (s :: rest) ↔
      ¬ (l.toList <+: s.toList) ∧ noFragment l rest := by
  simp [noFragment, List.forall_mem_cons]

@[simp] lemma noFragment_optPart {α : Type} (l : String) (o : Option α)
    (f : α → String) :
    noFragment l (optPart o f) ↔
      ∀ a, o = some a → ¬ (l.toList <+: (f a).toList) := by
  cases o <;> simp [optPart, noFragment]

@[simp] lemma noFragment_listPart {α : Type} (l : String) (xs : List α)
    (s : String) :
    noFragment l (listPart xs s) ↔ (xs = [] ∨ ¬ (l.toList <+: s.toList)) := by
  cases xs <;> simp [listPart, noFragment]

@[simp] lemma noFragment_schedParts (l : String) (sd ed : Option String) :
    noFragment l (schedParts sd ed) ↔
      (∀ s e, sd = some s → ed = some e →
        ¬ (l.toList <+: ("Scheduled from " ++ (s ++ " to " ++ e)).toList)) ∧
      (∀ s, sd = some s → ed = none →
        ¬ (l.toList <+: ("Starts on " ++ s).toList)) := by
  cases sd <;> cases ed <;> simp [schedParts, noFragment]

/-- The employee-count fragment label is one of the four tier words. -/
lemma sizeLabel_cases (c : Int) :
    sizeLabel c = "small" ∨ sizeLabel c = "medium" ∨ sizeLabel c = "large" ∨
    sizeLabel c = "enterprise" := by
  unfold sizeLabel
  split_ifs <;> simp

/-- Membership in the people pipeline output is exactly the score floor. -/
lemma mem_processPeople_iff (rows : List PersonSearchDb) (r : PersonSearchDb)
    (hr : r ∈ rows) :
    shapePerson r ∈ processPeople rows ↔ 50 ≤ scoreOfDist r.dist := by
  constructor
  · intro hmem
    have h := (List.mem_filter.mp hmem).2
    simpa [shapePerson] using h
  · intro hs
    refine List.mem_filter.mpr ⟨List.mem_map_of_mem shapePerson hr, ?_⟩
    simpa [shapePerson] using hs

/-! ## Claim theorems -/

/-- C7: calling `generate_embedding` or `generate_embeddings_batch` while the
producer is uninitialized returns the explicit "not initialized" error value
for every input, and never panics. -/
theorem generation_before_init_errors :
    ∀ (text : String) (texts : List String),
      generate_embedding none text =
        .returns (.error notInitializedMsg) ∧
      generate_embeddings_batch none texts =
        .returns (.error notInitializedMsg) :=
  fun _ _ => ⟨rfl, rfl⟩

/-- C9: if the model inference succeeds but returns zero vectors for the
single-element batch, `generate_embedding` panics (the `unwrap`); it returns
`Ok` with the first vector whenever inference yields at least one output. -/
theorem empty_inference_output_panics :
    ∀ (e : Model) (text : String),
      (e [text] = .ok [] → generate_embedding (some e) text = .panics) ∧
      (∀ v vs, e [text] = .ok (v :: vs) →
        generate_embedding (some e) text = .returns (.ok v)) := by
  intro e text
  constructor
  · intro h
    simp [generate_embedding, h]
  · intro v vs h
    simp [generate_embedding, h]

/-- Witness for C9 at a concrete model returning zero vectors and one
returning a single vector. -/
theorem empty_inference_output_panics_witness :
    generate_embedding (some ((fun _ => .ok []) : Model)) "query" = .panics ∧
    generate_embedding (some ((fun _ => .ok [[1]]) : Model)) "query" =
      .returns (.ok [1]) :=
  ⟨(empty_inference_output_panics ((fun _ => .ok []) : Model) "query").1 rfl,
   (empty_inference_output_panics ((fun _ => .ok [[1]]) : Model) "query").2
     [1] [] rfl⟩

/-- C2 counterexample: the organization builder is not a function of its
seven arguments alone — with `founded_year` present, two invocations with
identical attributes but different clock years give different text. -/
theorem organization_builder_clock_dependence_cex :
    build_organization_embedding_text 2024 "Acme" "studio" none [] none
      (some 2000) none ≠
    build_organization_embedding_text 2025 "Acme" "studio" none [] none
      (some 2000) none := by decide

/-- C2 (amended): every builder is deterministic in its explicit arguments
together with, for the organization builder, the current clock year; with
`founded_year` absent the organization text does not depend on the year. -/
theorem organization_builder_deterministic_given_year :
    ∀ (y₁ y₂ : Int) (name org_type : String) (description : Option String)
      (services : List String) (location : Option String)
      (founded_year employees_count : Option Int),
      (y₁ = y₂ →
        build_organization_embedding_text y₁ name org_type description
          services location founded_year employees_count =
        build_organization_embedding_text y₂ name org_type description
          services location founded_year employees_count) ∧
      (founded_year = none →
        build_organization_embedding_text y₁ name org_type description
          services location founded_year employees_count =
        build_organization_embedding_text y₂ name org_type description
          services location founded_year employees_count) := by
  intro y₁ y₂ name org_type description services location founded_year
    employees_count
  constructor
  · rintro rfl
    rfl
  · rintro rfl
    rfl

/-- Witness for the amended C2 at concrete arguments and equal years. -/
theorem organization_builder_deterministic_given_year_witness :
    build_organization_embedding_text 2024 "Acme" "studio" none [] none
      (some 2000) none =
    build_organization_embedding_text 2024 "Acme" "studio" none [] none
      (some 2000) none :=
  (organization_builder_deterministic_given_year 2024 2024 "Acme" "studio"
    none [] none (some 2000) none).1 rfl

/-- C6: the score computed from a raw distance is antitone in the distance
(closer-is-smaller convention): a strictly smaller distance never yields a
strictly smaller score. -/
theorem score_monotone_in_distance :
    ∀ d₁ d₂ : ℚ, d₁ < d₂ → scoreOfDist d₂ ≤ scoreOfDist d₁ := by
  intro d₁ d₂ h
  unfold scoreOfDist similarityOfDist
  rw [round_eq, round_eq]
  apply Int.floor_le_floor
  have hmax : max (1 - d₂) 0 ≤ max (1 - d₁) 0 :=
    max_le_max (by linarith) le_rfl
  nlinarith

/-- Witness for C6 at distances 0 and 1. -/
theorem score_monotone_in_distance_witness :
    scoreOfDist 1 ≤ scoreOfDist 0 :=
  score_monotone_in_distance 0 1 (by norm_num)

/-- C3: a candidate row with distance `d` is shaped with integer score
`round(max(0, 1 - d) * 100)` and kept exactly when that score is at least
50: score 49 is excluded, score 50 is included, distance 0.3 scores 70,
distance 1.6 scores 0. -/
theorem person_score_floor :
    (∀ d : ℚ, scoreOfDist d = round (max 0 (1 - d) * 100)) ∧
    (∀ (rows : List PersonSearchDb) (r : PersonSearchDb), r ∈ rows →
      (shapePerson r ∈ processPeople rows ↔ 50 ≤ scoreOfDist r.dist)) ∧
    (∀ (rows : List PersonSearchDb) (r : PersonSearchDb), r ∈ rows →
      scoreOfDist r.dist = 49 → shapePerson r ∉ processPeople rows) ∧
    (∀ (rows : List PersonSearchDb) (r : PersonSearchDb), r ∈ rows →
      scoreOfDist r.dist = 50 → shapePerson r ∈ processPeople rows) ∧
    scoreOfDist (3/10) = 70 ∧ scoreOfDist (8/5) = 0 := by
  refine ⟨?_, ?_, ?_, ?_, ?_, ?_⟩
  · intro d
    unfold scoreOfDist similarityOfDist
    rw [max_comm]
  · exact fun rows r hr => mem_processPeople_iff rows r hr
  · intro rows r hr h49 hmem
    have := (mem_processPeople_iff rows r hr).mp hmem
    omega
  · intro rows r hr h50
    exact (mem_processPeople_iff rows r hr).mpr (by omega)
  · norm_num [scoreOfDist, similarityOfDist, round_eq]
  · norm_num [scoreOfDist, similarityOfDist, round_eq]

/-- Witness for C3: a concrete row with distance 1/2 (score exactly 50) is
included in the people results. -/
theorem person_score_floor_witness :
    shapePerson { id := "p", name := "Ada Lovelace", username := "ada",
                  headline := none, location := none, skills := [],
                  avatar_url := none, dist := 1/2 } ∈
    processPeople [{ id := "p", name := "Ada Lovelace", username := "ada",
                     headline := none, location := none, skills := [],
                     avatar_url := none, dist := 1/2 }] :=
  person_score_floor.2.2.2.1 _ _ (List.mem_singleton_self _)
    (by norm_num [scoreOfDist, similarityOfDist, round_eq])

/-- C5: every location result comes from a store row whose `is_public` flag
is true; rows with `is_public = false` never contribute a result, whatever
their distance. -/
theorem locations_only_public :
    ∀ (rows : List LocationSearchDb) (out : LocationSearchResult),
      out ∈ processLocations rows →
      ∃ row, row ∈ rows ∧ row.is_public = true ∧ out = shapeLocation row := by
  intro rows out hmem
  have h1 := (List.mem_filter.mp hmem).1
  obtain ⟨row, hrow, rfl⟩ := List.mem_map.mp h1
  exact ⟨row, (List.mem_filter.mp hrow).1, (List.mem_filter.mp hrow).2, rfl⟩

/-- Witness for C5 at a concrete public row with distance 0. -/
theorem locations_only_public_witness :
    ∃ row, row ∈ [({ id := "l", name := "Stage", address := "1 Main",
                     city := "LA", state := "CA", description := none,
                     is_public := true, dist := 0 } : LocationSearchDb)] ∧
      row.is_public = true ∧
      shapeLocation { id := "l", name := "Stage", address := "1 Main",
                      city := "LA", state := "CA", description := none,
                      is_public := true, dist := 0 } = shapeLocation row :=
  locations_only_public _ _
    (by
      refine List.mem_filter.mpr ⟨?_, ?_⟩
      · exact List.mem_map_of_mem shapeLocation (by simp [List.mem_filter])
      · norm_num [shapeLocation, scoreOfDist, similarityOfDist, round_eq])

/-- C4: an empty or whitespace-only query makes `search_page` return the
explicit empty result (no results, all lists empty, total 0) and the outcome
is independent of the embedding function and the store, so neither is ever
consulted. -/
theorem empty_query_short_circuits :
    ∀ (q : Option String) (e₁ e₂ : String → Except String Embedding)
      (s₁ s₂ : StoreResponses),
      (rustTrim (q.getD "")).isEmpty = true →
      search_page q e₁ s₁ = .ok emptySearchTemplate ∧
      search_page q e₁ s₁ = search_page q e₂ s₂ := by
  intro q e₁ e₂ s₁ s₂ h
  constructor <;> simp [search_page, h]

/-- Witness for C4 at a whitespace-only query and two different embedding
functions and stores. -/
theorem empty_query_short_circuits_witness :
    search_page (some "   ") (fun _ => .error "boom")
      (StoreResponses.mk (fun _ => .error "a") (fun _ => .error "b")
        (fun _ => .error "c") (fun _ => .error "d")) =
      .ok emptySearchTemplate ∧
    search_page (some "   ") (fun _ => .error "boom")
      (StoreResponses.mk (fun _ => .error "a") (fun _ => .error "b")
        (fun _ => .error "c") (fun _ => .error "d")) =
    search_page (some "   ") (fun _ => .ok [1])
      (StoreResponses.mk (fun _ => .ok []) (fun _ => .ok [])
        (fun _ => .ok []) (fun _ => .ok [])) :=
  empty_query_short_circuits (some "   ") _ _ _ _ (by decide)

/-- C1 counterexample: with the people lookup failing and the other three
kinds succeeding, `search_page` fails the whole request with a database
error instead of returning the three successful kinds. -/
theorem one_kind_failure_partial_results_cex :
    search_page (some "drama") (fun _ => .ok [])
      (StoreResponses.mk (fun _ => .error "backend down") (fun _ => .ok [])
        (fun _ => .ok []) (fun _ => .ok [])) =
    .error (.Database "backend down") := by rfl

/-- C1 (amended): whenever any of the four kind lookups fails (after a
successful embedding of a nonempty query), `search_page` aborts the whole
request with a database error; no partial results or unavailability marker
are produced. -/
theorem kind_failure_fails_whole_request :
    ∀ (q : Option String) (embed : String → Except String Embedding)
      (stores : StoreResponses) (v : Embedding),
      (rustTrim (q.getD "")).isEmpty = false →
      embed (rustTrim (q.getD "")) = .ok v →
      ((∃ e, stores.people v = .error e) ∨
       (∃ e, stores.organizations v = .error e) ∨
       (∃ e, stores.locations v = .error e) ∨
       (∃ e, stores.productions v = .error e)) →
      ∃ msg, search_page q embed stores = .error (AppError.Database msg) := by
  intro q embed stores v hne hemb hfail
  rcases hp : stores.people v with ep | prows
  · exact ⟨ep, by simp [search_page, hne, hemb, hp, search_people, Bind.bind,
      Except.bind]⟩
  · rcases ho : stores.organizations v with eo | orows
    · exact ⟨eo, by simp [search_page, hne, hemb, hp, ho, search_people,
        search_organizations, Bind.bind, Except.bind]⟩
    · rcases hl : stores.locations v with el | lrows
      · exact ⟨el, by simp [search_page, hne, hemb, hp, ho, hl, search_people,
          search_organizations, search_locations, Bind.bind, Except.bind]⟩
      · rcases hpr : stores.productions v with epr | prrows
        · exact ⟨epr, by simp [search_page, hne, hemb, hp, ho, hl, hpr,
            search_people, search_organizations, search_locations,
            search_productions, Bind.bind, Except.bind]⟩
        · exfalso
          rcases hfail with ⟨e, he⟩ | ⟨e, he⟩ | ⟨e, he⟩ | ⟨e, he⟩ <;>
            simp_all

/-- Witness for the amended C1 at a concrete failing people lookup. -/
theorem kind_failure_fails_whole_request_witness :
    ∃ msg, search_page (some "x") (fun _ => .ok [])
      (StoreResponses.mk (fun _ => .error "down") (fun _ => .ok [])
        (fun _ => .ok []) (fun _ => .ok [])) =
      .error (AppError.Database msg) :=
  kind_failure_fails_whole_request (some "x") _ _ [] (by decide) rfl
    (Or.inl ⟨"down", rfl⟩)

/-- C10: when `height_cm` is present the person text contains the height
fragment computed with 30 cm per foot by truncating integer arithmetic
(`feet = h / 30`, `inches = (h % 30) * 12 / 30`); at 180 cm the fragment
reads `Height: 180 cm (6'0")`. -/
theorem height_fragment_formula :
    (∀ (name : String) (headline bio : Option String) (skills : List String)
      (location : Option String) (age_range : Option (Int × Int))
      (gender : Option String) (ethnicity : List String) (h : Int)
      (body_type hair_color eye_color : Option String)
      (languages unions experience : List String),
      heightFragment h ∈ build_person_parts name headline bio skills location
        age_range gender ethnicity (some h) body_type hair_color eye_color
        languages unions experience) ∧
    heightFragment 180 = "Height: 180 cm (6\x270\x22)" := by
  constructor
  · intro name headline bio skills location age_range gender ethnicity h
      body_type hair_color eye_color languages unions experience
    simp [build_person_parts, optPart]
  · decide

/-- C8: for every canonicalization builder and every attribute set in which
an optional attribute is absent (`none`, or an empty list for list-valued
attributes), no emitted fragment carries the corresponding label — in
particular no empty labeled fragment appears in the canonical text. -/
theorem absent_attribute_no_fragment :
    ∀ (pname : String) (pheadline pbio : Option String)
      (pskills : List String) (ploc : Option String)
      (page : Option (Int × Int)) (pgender : Option String)
      (peth : List String) (pheight : Option Int)
      (pbody phair peye : Option String) (plang puni pexp : List String)
      (oyear : Int) (oname otype : String) (odesc : Option String)
      (oserv : List String) (oloc : Option String)
      (ofound ocount : Option Int)
      (lname : String) (ldesc : Option String) (lcity lstate lcountry : String)
      (lamen lrestr : List String) (lcap : Option Int) (lpark : Option String)
      (ptitle pttype ptstatus : String)
      (ptdesc ptloc ptstart ptend : Option String),
      (pheadline = none →
        noFragment "Role:" (build_person_parts pname pheadline pbio pskills ploc page pgender peth pheight pbody phair peye plang puni pexp)) ∧
      (pgender = none →
        noFragment "Gender:" (build_person_parts pname pheadline pbio pskills ploc page pgender peth pheight pbody phair peye plang puni pexp)) ∧
      (page = none →
        noFragment "Age range:" (build_person_parts pname pheadline pbio pskills ploc page pgender peth pheight pbody phair peye plang puni pexp)) ∧
      (peth = [] →
        noFragment "Ethnicity:" (build_person_parts pname pheadline pbio pskills ploc page pgender peth pheight pbody phair peye plang puni pexp)) ∧
      (pheight = none →
        noFragment "Height:" (build_person_parts pname pheadline pbio pskills ploc page pgender peth pheight pbody phair peye plang puni pexp)) ∧
      (pbody = none →
        noFragment "Build:" (build_person_parts pname pheadline pbio pskills ploc page pgender peth pheight pbody phair peye plang puni pexp)) ∧
      (phair = none →
        noFragment "Hair:" (build_person_parts pname pheadline pbio pskills ploc page pgender peth pheight pbody phair peye plang puni pexp)) ∧
      (peye = none →
        noFragment "Eyes:" (build_person_parts pname pheadline pbio pskills ploc page pgender peth pheight pbody phair peye plang puni pexp)) ∧
      (ploc = none →
        noFragment "Location:" (build_person_parts pname pheadline pbio pskills ploc page pgender peth pheight pbody phair peye plang puni pexp)) ∧
      (pskills = [] →
        noFragment "Skills and abilities:" (build_person_parts pname pheadline pbio pskills ploc page pgender peth pheight pbody phair peye plang puni pexp)) ∧
      (plang = [] →
        noFragment "Languages:" (build_person_parts pname pheadline pbio pskills ploc page pgender peth pheight pbody phair peye plang puni pexp)) ∧
      (puni = [] →
        noFragment "Union membership:" (build_person_parts pname pheadline pbio pskills ploc page pgender peth pheight pbody phair peye plang puni pexp)) ∧
      (pbio = none →
        noFragment "Background:" (build_person_parts pname pheadline pbio pskills ploc page pgender peth pheight pbody phair peye plang puni pexp)) ∧
      (pexp = [] →
        noFragment "Experience:" (build_person_parts pname pheadline pbio pskills ploc page pgender peth pheight pbody phair peye plang puni pexp)) ∧
      (oloc = none →
        noFragment "Location:" (build_organization_parts oyear oname otype odesc oserv oloc ofound ocount)) ∧
      (oserv = [] →
        noFragment "Services:" (build_organization_parts oyear oname otype odesc oserv oloc ofound ocount)) ∧
      (ofound = none →
        noFragment "Established" (build_organization_parts oyear oname otype odesc oserv oloc ofound ocount)) ∧
      (ocount = none →
        noFragment "small" (build_organization_parts oyear oname otype odesc oserv oloc ofound ocount) ∧ noFragment "medium" (build_organization_parts oyear oname otype odesc oserv oloc ofound ocount) ∧
        noFragment "large" (build_organization_parts oyear oname otype odesc oserv oloc ofound ocount) ∧ noFragment "enterprise" (build_organization_parts oyear oname otype odesc oserv oloc ofound ocount)) ∧
      (odesc = none →
        noFragment "Description:" (build_organization_parts oyear oname otype odesc oserv oloc ofound ocount)) ∧
      (ldesc = none →
        noFragment "Description:" (build_location_parts lname ldesc lcity lstate lcountry lamen lrestr lcap lpark)) ∧
      (lamen = [] →
        noFragment "Amenities and features:" (build_location_parts lname ldesc lcity lstate lcountry lamen lrestr lcap lpark)) ∧
      (lcap = none →
        noFragment "Maximum capacity:" (build_location_parts lname ldesc lcity lstate lcountry lamen lrestr lcap lpark)) ∧
      (lpark = none →
        noFragment "Parking:" (build_location_parts lname ldesc lcity lstate lcountry lamen lrestr lcap lpark)) ∧
      (lrestr = [] →
        noFragment "Restrictions:" (build_location_parts lname ldesc lcity lstate lcountry lamen lrestr lcap lpark)) ∧
      (ptdesc = none →
        noFragment "Description:" (build_production_parts ptitle pttype ptstatus ptdesc ptloc ptstart ptend)) ∧
      (ptloc = none →
        noFragment "Filming location:" (build_production_parts ptitle pttype ptstatus ptdesc ptloc ptstart ptend)) ∧
      (ptstart = none →
        noFragment "Scheduled from" (build_production_parts ptitle pttype ptstatus ptdesc ptloc ptstart ptend) ∧ noFragment "Starts on" (build_production_parts ptitle pttype ptstatus ptdesc ptloc ptstart ptend)) ∧
      (ptend = none →
        noFragment "Scheduled from" (build_production_parts ptitle pttype ptstatus ptdesc ptloc ptstart ptend)) := by
  intro pname pheadline pbio pskills ploc page pgender peth pheight pbody
    phair peye plang puni pexp oyear oname otype odesc oserv oloc ofound
    ocount lname ldesc lcity lstate lcountry lamen lrestr lcap lpark ptitle
    pttype ptstatus ptdesc ptloc ptstart ptend
  refine ⟨?_, ?_, ?_, ?_, ?_, ?_, ?_, ?_, ?_, ?_, ?_, ?_, ?_, ?_, ?_, ?_, ?_, ?_, ?_, ?_, ?_, ?_, ?_, ?_, ?_, ?_, ?_, ?_⟩
  · intro h
    subst h
    simp only [build_person_parts, build_organization_parts,
      build_location_parts, build_production_parts, heightFragment,
      noFragment_append, noFragment_singleton, noFragment_cons,
      noFragment_nil, noFragment_optPart, noFragment_listPart,
      noFragment_schedParts]
    repeat' apply And.intro
    all_goals intros
    all_goals first
      | exact label_not_pfx _ _ _ (by decide) (by decide)
      | simp_all
  · intro h
    subst h
    simp only [build_person_parts, build_organization_parts,
      build_location_parts, build_production_parts, heightFragment,
      noFragment_append, noFragment_singleton, noFragment_cons,
      noFragment_nil, noFragment_optPart, noFragment_listPart,
      noFragment_schedParts]
    repeat' apply And.intro
    all_goals intros
    all_goals first
      | exact label_not_pfx _ _ _ (by decide) (by decide)
      | simp_all
  · intro h
    subst h
    simp only [build_person_parts, build_organization_parts,
      build_location_parts, build_production_parts, heightFragment,
      noFragment_append, noFragment_singleton, noFragment_cons,
      noFragment_nil, noFragment_optPart, noFragment_listPart,
      noFragment_schedParts]
    repeat' apply And.intro
    all_goals intros
    all_goals first
      | exact label_not_pfx _ _ _ (by decide) (by decide)
      | simp_all
  · intro h
    subst h
    simp only [build_person_parts, build_organization_parts,
      build_location_parts, build_production_parts, heightFragment,
      noFragment_append, noFragment_singleton, noFragment_cons,
      noFragment_nil, noFragment_optPart, noFragment_listPart,
      noFragment_schedParts]
    repeat' apply And.intro
    all_goals intros
    all_goals first
      | exact label_not_pfx _ _ _ (by decide) (by decide)
      | simp_all
  · intro h
    subst h
    simp only [build_person_parts, build_organization_parts,
      build_location_parts, build_production_parts, heightFragment,
      noFragment_append, noFragment_singleton, noFragment_cons,
      noFragment_nil, noFragment_optPart, noFragment_listPart,
      noFragment_schedParts]
    repeat' apply And.intro
    all_goals intros
    all_goals first
      | exact label_not_pfx _ _ _ (by decide) (by decide)
      | simp_all
  · intro h
    subst h
    simp only [build_person_parts, build_organization_parts,
      build_location_parts, build_production_parts, heightFragment,
      noFragment_append, noFragment_singleton, noFragment_cons,
      noFragment_nil, noFragment_optPart, noFragment_listPart,
      noFragment_schedParts]
    repeat' apply And.intro
    all_goals intros
    all_goals first
      | exact label_not_pfx _ _ _ (by decide) (by decide)
      | simp_all
  · intro h
    subst h
    simp only [build_person_parts, build_organization_parts,
      build_location_parts, build_production_parts, heightFragment,
      noFragment_append, noFragment_singleton, noFragment_cons,
      noFragment_nil, noFragment_optPart, noFragment_listPart,
      noFragment_schedParts]
    repeat' apply And.intro
    all_goals intros
    all_goals first
      | exact label_not_pfx _ _ _ (by decide) (by decide)
      | simp_all
  · intro h
    subst h
    simp only [build_person_parts, build_organization_parts,
      build_location_parts, build_production_parts, heightFragment,
      noFragment_append, noFragment_singleton, noFragment_cons,
      noFragment_nil, noFragment_optPart, noFragment_listPart,
      noFragment_schedParts]
    repeat' apply And.intro
    all_goals intros
    all_goals first
      | exact label_not_pfx _ _ _ (by decide) (by decide)
      | simp_all
  · intro h
    subst h
    simp only [build_person_parts, build_organization_parts,
      build_location_parts, build_production_parts, heightFragment,
      noFragment_append, noFragment_singleton, noFragment_cons,
      noFragment_nil, noFragment_optPart, noFragment_listPart,
      noFragment_schedParts]
    repeat' apply And.intro
    all_goals intros
    all_goals first
      | exact label_not_pfx _ _ _ (by decide) (by decide)
      | simp_all
  · intro h
    subst h
    simp only [build_person_parts, build_organization_parts,
      build_location_parts, build_production_parts, heightFragment,
      noFragment_append, noFragment_singleton, noFragment_cons,
      noFragment_nil, noFragment_optPart, noFragment_listPart,
      noFragment_schedParts]
    repeat' apply And.intro
    all_goals intros
    all_goals first
      | exact label_not_pfx _ _ _ (by decide) (by decide)
      | simp_all
  · intro h
    subst h
    simp only [build_person_parts, build_organization_parts,
      build_location_parts, build_production_parts, heightFragment,
      noFragment_append, noFragment_singleton, noFragment_cons,
      noFragment_nil, noFragment_optPart, noFragment_listPart,
      noFragment_schedParts]
    repeat' apply And.intro
    all_goals intros
    all_goals first
      | exact label_not_pfx _ _ _ (by decide) (by decide)
      | simp_all
  · intro h
    subst h
    simp only [build_person_parts, build_organization_parts,
      build_location_parts, build_production_parts, heightFragment,
      noFragment_append, noFragment_singleton, noFragment_cons,
      noFragment_nil, noFragment_optPart, noFragment_listPart,
      noFragment_schedParts]
    repeat' apply And.intro
    all_goals intros
    all_goals first
      | exact label_not_pfx _ _ _ (by decide) (by decide)
      | simp_all
  · intro h
    subst h
    simp only [build_person_parts, build_organization_parts,
      build_location_parts, build_production_parts, heightFragment,
      noFragment_append, noFragment_singleton, noFragment_cons,
      noFragment_nil, noFragment_optPart, noFragment_listPart,
      noFragment_schedParts]
    repeat' apply And.intro
    all_goals intros
    all_goals first
      | exact label_not_pfx _ _ _ (by decide) (by decide)
      | simp_all
  · intro h
    subst h
    simp only [build_person_parts, build_organization_parts,
      build_location_parts, build_production_parts, heightFragment,
      noFragment_append, noFragment_singleton, noFragment_cons,
      noFragment_nil, noFragment_optPart, noFragment_listPart,
      noFragment_schedParts]
    repeat' apply And.intro
    all_goals intros
    all_goals first
      | exact label_not_pfx _ _ _ (by decide) (by decide)
      | simp_all
  · intro h
    subst h
    simp only [build_person_parts, build_organization_parts,
      build_location_parts, build_production_parts, heightFragment,
      noFragment_append, noFragment_singleton, noFragment_cons,
      noFragment_nil, noFragment_optPart, noFragment_listPart,
      noFragment_schedParts]
    repeat' apply And.intro
    all_goals intros
    all_goals first
      | exact label_not_pfx _ _ _ (by decide) (by decide)
      | (rename_i a ha
         rcases sizeLabel_cases a with hs | hs | hs | hs <;> rw [hs] <;>
           exact label_not_pfx _ _ _ (by decide) (by decide))
      | simp_all
  · intro h
    subst h
    simp only [build_person_parts, build_organization_parts,
      build_location_parts, build_production_parts, heightFragment,
      noFragment_append, noFragment_singleton, noFragment_cons,
      noFragment_nil, noFragment_optPart, noFragment_listPart,
      noFragment_schedParts]
    repeat' apply And.intro
    all_goals intros
    all_goals first
      | exact label_not_pfx _ _ _ (by decide) (by decide)
      | (rename_i a ha
         rcases sizeLabel_cases a with hs | hs | hs | hs <;> rw [hs] <;>
           exact label_not_pfx _ _ _ (by decide) (by decide))
      | simp_all
  · intro h
    subst h
    simp only [build_person_parts, build_organization_parts,
      build_location_parts, build_production_parts, heightFragment,
      noFragment_append, noFragment_singleton, noFragment_cons,
      noFragment_nil, noFragment_optPart, noFragment_listPart,
      noFragment_schedParts]
    repeat' apply And.intro
    all_goals intros
    all_goals first
      | exact label_not_pfx _ _ _ (by decide) (by decide)
      | (rename_i a ha
         rcases sizeLabel_cases a with hs | hs | hs | hs <;> rw [hs] <;>
           exact label_not_pfx _ _ _ (by decide) (by decide))
      | simp_all
  · intro h
    subst h
    simp only [build_person_parts, build_organization_parts,
      build_location_parts, build_production_parts, heightFragment,
      noFragment_append, noFragment_singleton, noFragment_cons,
      noFragment_nil, noFragment_optPart, noFragment_listPart,
      noFragment_schedParts]
    repeat' apply And.intro
    all_goals intros
    all_goals first
      | exact label_not_pfx _ _ _ (by decide) (by decide)
      | simp_all
  · intro h
    subst h
    simp only [build_person_parts, build_organization_parts,
      build_location_parts, build_production_parts, heightFragment,
      noFragment_append, noFragment_singleton, noFragment_cons,
      noFragment_nil, noFragment_optPart, noFragment_listPart,
      noFragment_schedParts]
    repeat' apply And.intro
    all_goals intros
    all_goals first
      | exact label_not_pfx _ _ _ (by decide) (by decide)
      | (rename_i a ha
         rcases sizeLabel_cases a with hs | hs | hs | hs <;> rw [hs] <;>
           exact label_not_pfx _ _ _ (by decide) (by decide))
      | simp_all
  · intro h
    subst h
    simp only [build_person_parts, build_organization_parts,
      build_location_parts, build_production_parts, heightFragment,
      noFragment_append, noFragment_singleton, noFragment_cons,
      noFragment_nil, noFragment_optPart, noFragment_listPart,
      noFragment_schedParts]
    repeat' apply And.intro
    all_goals intros
    all_goals first
      | exact label_not_pfx _ _ _ (by decide) (by decide)
      | simp_all
  · intro h
    subst h
    simp only [build_person_parts, build_organization_parts,
      build_location_parts, build_production_parts, heightFragment,
      noFragment_append, noFragment_singleton, noFragment_cons,
      noFragment_nil, noFragment_optPart, noFragment_listPart,
      noFragment_schedParts]
    repeat' apply And.intro
    all_goals intros
    all_goals first
      | exact label_not_pfx _ _ _ (by decide) (by decide)
      | simp_all
  · intro h
    subst h
    simp only [build_person_parts, build_organization_parts,
      build_location_parts, build_production_parts, heightFragment,
      noFragment_append, noFragment_singleton, noFragment_cons,
      noFragment_nil, noFragment_optPart, noFragment_listPart,
      noFragment_schedParts]
    repeat' apply And.intro
    all_goals intros
    all_goals first
      | exact label_not_pfx _ _ _ (by decide) (by decide)
      | simp_all
  · intro h
    subst h
    simp only [build_person_parts, build_organization_parts,
      build_location_parts, build_production_parts, heightFragment,
      noFragment_append, noFragment_singleton, noFragment_cons,
      noFragment_nil, noFragment_optPart, noFragment_listPart,
      noFragment_schedParts]
    repeat' apply And.intro
    all_goals intros
    all_goals first
      | exact label_not_pfx _ _ _ (by decide) (by decide)
      | simp_all
  · intro h
    subst h
    simp only [build_person_parts, build_organization_parts,
      build_location_parts, build_production_parts, heightFragment,
      noFragment_append, noFragment_singleton, noFragment_cons,
      noFragment_nil, noFragment_optPart, noFragment_listPart,
      noFragment_schedParts]
    repeat' apply And.intro
    all_goals intros
    all_goals first
      | exact label_not_pfx _ _ _ (by decide) (by decide)
      | simp_all
  · intro h
    subst h
    simp only [build_person_parts, build_organization_parts,
      build_location_parts, build_production_parts, heightFragment,
      noFragment_append, noFragment_singleton, noFragment_cons,
      noFragment_nil, noFragment_optPart, noFragment_listPart,
      noFragment_schedParts]
    repeat' apply And.intro
    all_goals intros
    all_goals first
      | exact label_not_pfx _ _ _ (by decide) (by decide)
      | simp_all
  · intro h
    subst h
    simp only [build_person_parts, build_organization_parts,
      build_location_parts, build_production_parts, heightFragment,
      noFragment_append, noFragment_singleton, noFragment_cons,
      noFragment_nil, noFragment_optPart, noFragment_listPart,
      noFragment_schedParts]
    repeat' apply And.intro
    all_goals intros
    all_goals first
      | exact label_not_pfx _ _ _ (by decide) (by decide)
      | simp_all
  · intro h
    subst h
    simp only [build_person_parts, build_organization_parts,
      build_location_parts, build_production_parts, heightFragment,
      noFragment_append, noFragment_singleton, noFragment_cons,
      noFragment_nil, noFragment_optPart, noFragment_listPart,
      noFragment_schedParts]
    repeat' apply And.intro
    all_goals intros
    all_goals first
      | exact label_not_pfx _ _ _ (by decide) (by decide)
      | simp_all
  · intro h
    subst h
    simp only [build_person_parts, build_organization_parts,
      build_location_parts, build_production_parts, heightFragment,
      noFragment_append, noFragment_singleton, noFragment_cons,
      noFragment_nil, noFragment_optPart, noFragment_listPart,
      noFragment_schedParts]
    repeat' apply And.intro
    all_goals intros
    all_goals first
      | exact label_not_pfx _ _ _ (by decide) (by decide)
      | simp_all

/-- Witness for C8: in a person record with every optional attribute absent,
no fragment carries the headline label. -/
theorem absent_attribute_no_fragment_witness :
    noFragment "Role:" (build_person_parts "John Doe" none none [] none none
      none [] none none none none [] [] []) :=
  (absent_attribute_no_fragment "John Doe" none none [] none none none []
    none none none none [] [] [] 2024 "Acme" "studio" none [] none none none
    "Loft" none "LA" "CA" "USA" [] [] none none "Film" "feature" "active"
    none none none none).1 rfl

end SlateHub
